import Mathlib

/-!
Verification of the Draco transcoder C API boundary
(`draco_transcoder_c_api.cc` / `draco_transcoder_c_api.h`).

The boundary code is embedded shallowly: C pointers become `Option` values
(`none` models a null pointer), the `*output_size` out-parameter becomes an
explicit value threaded in and out of the function, and the delegate library
(glTF decoder/encoder, `DracoTranscoder`, `DracoCompressionOptions::Check`,
`SceneUtils::SetDracoCompressionOptions`), which is not part of the boundary
source, is abstracted into a `Delegate` record of functions.  Each entry
point additionally returns an ordered trace of the checks it evaluated and
the delegate calls it performed, transcribing the source's statement order,
so that ordering claims can be stated.
-/

set_option autoImplicit false

namespace DracoCAPI

/-- The C-compatible options struct `DracoOptions` from
`draco_transcoder_c_api.h`: seven quantization bit depths and a compression
level, all C `int` fields (embedded as `Int`). -/
structure DracoOptions where
  quantization_position : Int
  quantization_tex_coord : Int
  quantization_normal : Int
  quantization_color : Int
  quantization_tangent : Int
  quantization_weight : Int
  quantization_generic : Int
  compression_level : Int
deriving Repr, DecidableEq

/-- Modelled from the spec: the position-quantization slot of the delegate
configuration.  Its type (`SpatialQuantizationOptions` in the delegate
library) is not under src/; the spec says the position slot is set through a
dedicated "set precision in bits" operation, distinct from the plain integer
fields used for the other attribute classes. -/
structure SpatialQuantizationOptions where
  quantization_bits : Int
deriving Repr, DecidableEq

/-- Modelled from the spec: the dedicated setter used for the position slot
(`SetQuantizationBits` in the delegate library). -/
def SpatialQuantizationOptions.SetQuantizationBits
    (_o : SpatialQuantizationOptions) (bits : Int) : SpatialQuantizationOptions :=
  ⟨bits⟩

/-- The delegate geometry configuration (`transcode_options.geometry`,
of type `DracoCompressionOptions` in the delegate library): the slots that
the boundary's options adapter populates. -/
structure DracoCompressionOptions where
  compression_level : Int
  quantization_position : SpatialQuantizationOptions
  quantization_bits_tex_coord : Int
  quantization_bits_normal : Int
  quantization_bits_color : Int
  quantization_bits_tangent : Int
  quantization_bits_weight : Int
  quantization_bits_generic : Int
deriving Repr, DecidableEq

/-- The delegate transcoding configuration (`DracoTranscodingOptions`):
the boundary only touches its `geometry` member. -/
structure DracoTranscodingOptions where
  geometry : DracoCompressionOptions
deriving Repr, DecidableEq

/-- Modelled from the spec: the default-constructed `DracoTranscodingOptions`
value.  The delegate's defaults are not under src/; the spec's interface
table gives the typical defaults (position 11, tex coord 10, the other
bit depths 8, compression level 7).  Every field is overwritten by the
options adapter before any use, so no theorem below depends on these
values. -/
def defaultTranscodingOptions : DracoTranscodingOptions :=
  ⟨⟨7, ⟨11⟩, 10, 8, 8, 8, 8, 8⟩⟩

/-- The file-path options pair (`DracoTranscoder::FileOptions`). -/
structure FileOptions where
  input_filename : String
  output_filename : String
deriving Repr, DecidableEq

/-- The inlined options-translation block of `draco_transcode_gltf`
(the file path), one record update per C++ assignment statement, in source
order, starting from the default-constructed configuration. -/
def draco_transcode_gltf_options (options : DracoOptions) : DracoTranscodingOptions :=
  let t := defaultTranscodingOptions
  let t := { t with geometry.compression_level := options.compression_level }
  let t := { t with geometry.quantization_position :=
      t.geometry.quantization_position.SetQuantizationBits options.quantization_position }
  let t := { t with geometry.quantization_bits_tex_coord := options.quantization_tex_coord }
  let t := { t with geometry.quantization_bits_normal := options.quantization_normal }
  let t := { t with geometry.quantization_bits_color := options.quantization_color }
  let t := { t with geometry.quantization_bits_tangent := options.quantization_tangent }
  let t := { t with geometry.quantization_bits_weight := options.quantization_weight }
  let t := { t with geometry.quantization_bits_generic := options.quantization_generic }
  t

/-- The inlined options-translation block of
`draco_transcode_gltf_from_buffer` (the buffer path), transcribed separately
from its own source lines so that the two blocks can be compared. -/
def draco_transcode_gltf_from_buffer_options (options : DracoOptions) : DracoTranscodingOptions :=
  let t := defaultTranscodingOptions
  let t := { t with geometry.compression_level := options.compression_level }
  let t := { t with geometry.quantization_position :=
      t.geometry.quantization_position.SetQuantizationBits options.quantization_position }
  let t := { t with geometry.quantization_bits_tex_coord := options.quantization_tex_coord }
  let t := { t with geometry.quantization_bits_normal := options.quantization_normal }
  let t := { t with geometry.quantization_bits_color := options.quantization_color }
  let t := { t with geometry.quantization_bits_tangent := options.quantization_tangent }
  let t := { t with geometry.quantization_bits_weight := options.quantization_weight }
  let t := { t with geometry.quantization_bits_generic := options.quantization_generic }
  t

/-- Modelled from the spec: the delegate validity predicate
`DracoCompressionOptions::Check` is not under src/.  The spec says the
quantization bit depths are "non-negative bit-depth integers" with "valid
ranges" checked by the predicate, and that `compression_level = -1` is "out
of valid range"; so the model rejects any negative field. -/
def specCheck (g : DracoCompressionOptions) : Bool :=
  decide (0 ≤ g.compression_level ∧
    0 ≤ g.quantization_position.quantization_bits ∧
    0 ≤ g.quantization_bits_tex_coord ∧
    0 ≤ g.quantization_bits_normal ∧
    0 ≤ g.quantization_bits_color ∧
    0 ≤ g.quantization_bits_tangent ∧
    0 ≤ g.quantization_bits_weight ∧
    0 ≤ g.quantization_bits_generic)

/-- The abstract delegate library (glTF codec, transcoder, scene utilities),
treated as an external collaborator as in the spec.  `σ` is the opaque scene
type (`draco::Scene`).  Status-returning delegate operations become `Bool`
(`true` models `Status::ok()`), `StatusOr` producers become `Option`, and
`malloc` success is a predicate on the requested size. -/
structure Delegate (σ : Type) where
  Check : DracoCompressionOptions → Bool
  CreateOk : DracoTranscodingOptions → Bool
  TranscodeOk : DracoTranscodingOptions → FileOptions → Bool
  DecodeFromBufferToScene : List UInt8 → Nat → Option σ
  SetDracoCompressionOptions : DracoCompressionOptions → σ → σ
  EncodeToBuffer : σ → Option (List UInt8)
  mallocOk : Nat → Bool

/-- Ordered events recorded by the embedded entry points: the argument
presence check, the options validity check, each delegate call, the `malloc`
of the output block, and the production of output (returned bytes, or the
file written by the delegate transcode on the file path). -/
inductive Ev where
  | argCheck
  | optionsCheck
  | callCreate
  | callTranscode
  | callDecode
  | callApply
  | callEncode
  | callMalloc
  | producedOutput
deriving Repr, DecidableEq

/-- Which events are delegate invocations (transcoder creation, file
transcode, scene decode, compression-options application, scene encode). -/
def Ev.isDelegate : Ev → Bool
  | .callCreate => true
  | .callTranscode => true
  | .callDecode => true
  | .callApply => true
  | .callEncode => true
  | _ => false

/-- The file-path entry point `draco_transcode_gltf`.  Nullable C pointer
arguments are `Option` values.  Returns the C `int` status together with the
ordered event trace.  The output file is only ever touched inside the
delegate `Transcode` call, so `callTranscode ∉ trace` models "output path
untouched". -/
def draco_transcode_gltf {σ : Type} (d : Delegate σ)
    (input_filename output_filename : Option String)
    (options : Option DracoOptions) : Int × List Ev :=
  match input_filename, output_filename, options with
  | some inf, some outf, some opts =>
    let file_options : FileOptions := ⟨inf, outf⟩
    let transcode_options := draco_transcode_gltf_options opts
    if d.Check transcode_options.geometry = false then
      (-2, [.argCheck, .optionsCheck])
    else if d.CreateOk transcode_options = false then
      (-3, [.argCheck, .optionsCheck, .callCreate])
    else if d.TranscodeOk transcode_options file_options = false then
      (-4, [.argCheck, .optionsCheck, .callCreate, .callTranscode])
    else
      (0, [.argCheck, .optionsCheck, .callCreate, .callTranscode, .producedOutput])
  | _, _, _ => (-1, [.argCheck])

/-- Result of a buffer-path entry point: the returned pointer's block
content (`none` models a null return), the final value stored at
`*output_size` (`none` when the `output_size` pointer itself is null, and
otherwise the pointed-to value after the call, which is the caller's
original value whenever the function never wrote through the pointer),
and the event trace. -/
structure BufferResult where
  ret : Option (List UInt8)
  out_size : Option Nat
  trace : List Ev
deriving Repr, DecidableEq

/-- The buffer-path compress entry point `draco_transcode_gltf_from_buffer`.  `input_data` is the byte block behind the input pointer (`none` for
null), `output_size` is the caller's value at `*output_size` (`none` for a
null pointer).  The source checks `!input_data || !input_size || !options ||
!output_size` first and only then stores `*output_size = 0`. -/
def draco_transcode_gltf_from_buffer {σ : Type} (d : Delegate σ)
    (input_data : Option (List UInt8)) (input_size : Nat)
    (options : Option DracoOptions) (output_size : Option Nat) : BufferResult :=
  match input_data, options, output_size with
  | some data, some opts, some osz =>
    if input_size = 0 then ⟨none, some osz, [.argCheck]⟩
    else
      let transcode_options := draco_transcode_gltf_from_buffer_options opts
      if d.Check transcode_options.geometry = false then
        ⟨none, some 0, [.argCheck, .optionsCheck]⟩
      else
        match d.DecodeFromBufferToScene data input_size with
        | none => ⟨none, some 0, [.argCheck, .optionsCheck, .callDecode]⟩
        | some scene =>
          let scene := d.SetDracoCompressionOptions transcode_options.geometry scene
          match d.EncodeToBuffer scene with
          | none => ⟨none, some 0,
              [.argCheck, .optionsCheck, .callDecode, .callApply, .callEncode]⟩
          | some out =>
            if d.mallocOk out.length = false then
              ⟨none, some 0,
                [.argCheck, .optionsCheck, .callDecode, .callApply, .callEncode, .callMalloc]⟩
            else
              ⟨some out, some out.length,
                [.argCheck, .optionsCheck, .callDecode, .callApply, .callEncode, .callMalloc,
                  .producedOutput]⟩
  | _, _, _ => ⟨none, output_size, [.argCheck]⟩

/-- The buffer-path decompress entry point `draco_decompress_gltf_to_buffer`.  Takes no options, builds no configuration, and encodes the decoded
scene unchanged. -/
def draco_decompress_gltf_to_buffer {σ : Type} (d : Delegate σ)
    (input_data : Option (List UInt8)) (input_size : Nat)
    (output_size : Option Nat) : BufferResult :=
  match input_data, output_size with
  | some data, some osz =>
    if input_size = 0 then ⟨none, some osz, [.argCheck]⟩
    else
      match d.DecodeFromBufferToScene data input_size with
      | none => ⟨none, some 0, [.argCheck, .callDecode]⟩
      | some scene =>
        match d.EncodeToBuffer scene with
        | none => ⟨none, some 0, [.argCheck, .callDecode, .callEncode]⟩
        | some out =>
          if d.mallocOk out.length = false then
            ⟨none, some 0, [.argCheck, .callDecode, .callEncode, .callMalloc]⟩
          else
            ⟨some out, some out.length,
              [.argCheck, .callDecode, .callEncode, .callMalloc, .producedOutput]⟩
  | _, _ => ⟨none, output_size, [.argCheck]⟩

/-- The free operation `draco_free_buffer`. The heap is modelled as the list of currently
allocated block identifiers; `free` removes one occurrence of the block,
and the null check makes the call a no-op on `none`. -/
def draco_free_buffer (buffer : Option Nat) (heap : List Nat) : List Nat :=
  match buffer with
  | none => heap
  | some b => heap.erase b

/-- A concrete delegate instance over `σ := List UInt8`, used for witnesses:
validity is the spec-modelled `specCheck`, decoding returns the input bytes,
encoding prepends a byte (so encoded buffers are nonempty), and creation,
transcoding and allocation always succeed. -/
def specDelegate : Delegate (List UInt8) where
  Check := specCheck
  CreateOk := fun _ => true
  TranscodeOk := fun _ _ => true
  DecodeFromBufferToScene := fun data size => if size = 0 then none else some data
  SetDracoCompressionOptions := fun _ s => s
  EncodeToBuffer := fun s => some (0 :: s)
  mallocOk := fun _ => true

/-- The spec's default options record: qp=11, qt=10, qn=8, qc=8, qtg=8,
qw=8, qg=8, level=7. -/
def defaultDracoOptions : DracoOptions :=
  ⟨11, 10, 8, 8, 8, 8, 8, 7⟩

/-- In trace `t`, every occurrence of `optionsCheck` is preceded by an
earlier `argCheck`. -/
def argCheckBeforeOptionsCheck (t : List Ev) : Prop :=
  ∀ i : Fin t.length, t.get i = Ev.optionsCheck →
    ∃ j : Fin t.length, j.val < i.val ∧ t.get j = Ev.argCheck

/-- In trace `t`, every delegate call is preceded by an earlier
`argCheck`. -/
def argCheckBeforeDelegates (t : List Ev) : Prop :=
  ∀ i : Fin t.length, (t.get i).isDelegate = true →
    ∃ j : Fin t.length, j.val < i.val ∧ t.get j = Ev.argCheck

/-- In trace `t`, every delegate call is preceded by an earlier
`optionsCheck`. -/
def optionsCheckBeforeDelegates (t : List Ev) : Prop :=
  ∀ i : Fin t.length, (t.get i).isDelegate = true →
    ∃ j : Fin t.length, j.val < i.val ∧ t.get j = Ev.optionsCheck

instance (t : List Ev) : Decidable (argCheckBeforeOptionsCheck t) := by
  unfold argCheckBeforeOptionsCheck; infer_instance

instance (t : List Ev) : Decidable (argCheckBeforeDelegates t) := by
  unfold argCheckBeforeDelegates; infer_instance

instance (t : List Ev) : Decidable (optionsCheckBeforeDelegates t) := by
  unfold optionsCheckBeforeDelegates; infer_instance

/-- The two inlined options-translation blocks are the same function
(helper shared by several proofs). -/
theorem options_translation_eq (options : DracoOptions) :
    draco_transcode_gltf_options options = draco_transcode_gltf_from_buffer_options options :=
  rfl

/-- The file-path entry point produces one of six literal traces. -/
theorem draco_transcode_gltf_trace_cases {σ : Type} (d : Delegate σ)
    (inf outf : Option String) (opts : Option DracoOptions) :
    (draco_transcode_gltf d inf outf opts).2 = [.argCheck] ∨
    (draco_transcode_gltf d inf outf opts).2 = [.argCheck, .optionsCheck] ∨
    (draco_transcode_gltf d inf outf opts).2 = [.argCheck, .optionsCheck, .callCreate] ∨
    (draco_transcode_gltf d inf outf opts).2
      = [.argCheck, .optionsCheck, .callCreate, .callTranscode] ∨
    (draco_transcode_gltf d inf outf opts).2
      = [.argCheck, .optionsCheck, .callCreate, .callTranscode, .producedOutput] := by
  rcases inf with _ | i <;> rcases outf with _ | o <;> rcases opts with _ | p <;>
    simp only [draco_transcode_gltf] <;> try tauto
  split <;> try tauto
  split <;> try tauto
  split <;> tauto

/-- The buffer-path compress entry point produces one of six literal
traces. -/
theorem draco_transcode_gltf_from_buffer_trace_cases {σ : Type} (d : Delegate σ)
    (data : Option (List UInt8)) (size : Nat)
    (opts : Option DracoOptions) (osz : Option Nat) :
    (draco_transcode_gltf_from_buffer d data size opts osz).trace = [.argCheck] ∨
    (draco_transcode_gltf_from_buffer d data size opts osz).trace
      = [.argCheck, .optionsCheck] ∨
    (draco_transcode_gltf_from_buffer d data size opts osz).trace
      = [.argCheck, .optionsCheck, .callDecode] ∨
    (draco_transcode_gltf_from_buffer d data size opts osz).trace
      = [.argCheck, .optionsCheck, .callDecode, .callApply, .callEncode] ∨
    (draco_transcode_gltf_from_buffer d data size opts osz).trace
      = [.argCheck, .optionsCheck, .callDecode, .callApply, .callEncode, .callMalloc] ∨
    (draco_transcode_gltf_from_buffer d data size opts osz).trace
      = [.argCheck, .optionsCheck, .callDecode, .callApply, .callEncode, .callMalloc,
          .producedOutput] := by
  rcases data with _ | dta <;> rcases opts with _ | p <;> rcases osz with _ | v <;>
    simp only [draco_transcode_gltf_from_buffer] <;> try tauto
  split <;> try tauto
  split <;> try tauto
  rcases h : d.DecodeFromBufferToScene dta size with _ | sc <;> simp only [h] <;> try tauto
  rcases h2 : d.EncodeToBuffer
      (d.SetDracoCompressionOptions
        (draco_transcode_gltf_from_buffer_options p).geometry sc) with _ | out <;>
    simp only [h2] <;> try tauto
  split <;> tauto

/-- The buffer-path decompress entry point produces one of five literal
traces. -/
theorem draco_decompress_gltf_to_buffer_trace_cases {σ : Type} (d : Delegate σ)
    (data : Option (List UInt8)) (size : Nat) (osz : Option Nat) :
    (draco_decompress_gltf_to_buffer d data size osz).trace = [.argCheck] ∨
    (draco_decompress_gltf_to_buffer d data size osz).trace = [.argCheck, .callDecode] ∨
    (draco_decompress_gltf_to_buffer d data size osz).trace
      = [.argCheck, .callDecode, .callEncode] ∨
    (draco_decompress_gltf_to_buffer d data size osz).trace
      = [.argCheck, .callDecode, .callEncode, .callMalloc] ∨
    (draco_decompress_gltf_to_buffer d data size osz).trace
      = [.argCheck, .callDecode, .callEncode, .callMalloc, .producedOutput] := by
  rcases data with _ | dta <;> rcases osz with _ | v <;>
    simp only [draco_decompress_gltf_to_buffer] <;> try tauto
  split <;> try tauto
  rcases h : d.DecodeFromBufferToScene dta size with _ | sc <;> simp only [h] <;> try tauto
  rcases h2 : d.EncodeToBuffer sc with _ | out <;> simp only [h2] <;> try tauto
  split <;> tauto

/-- Exhaustive case analysis of the file-path entry point on non-null
arguments: exactly one of the four outcomes -2, -3, -4, 0 happens,
determined by the delegate verdicts in source order. -/
theorem draco_transcode_gltf_file_cases {σ : Type} (d : Delegate σ)
    (inf outf : String) (p : DracoOptions) :
    (d.Check (draco_transcode_gltf_options p).geometry = false ∧
      draco_transcode_gltf d (some inf) (some outf) (some p)
        = (-2, [.argCheck, .optionsCheck])) ∨
    (d.Check (draco_transcode_gltf_options p).geometry = true ∧
      d.CreateOk (draco_transcode_gltf_options p) = false ∧
      draco_transcode_gltf d (some inf) (some outf) (some p)
        = (-3, [.argCheck, .optionsCheck, .callCreate])) ∨
    (d.Check (draco_transcode_gltf_options p).geometry = true ∧
      d.CreateOk (draco_transcode_gltf_options p) = true ∧
      d.TranscodeOk (draco_transcode_gltf_options p) ⟨inf, outf⟩ = false ∧
      draco_transcode_gltf d (some inf) (some outf) (some p)
        = (-4, [.argCheck, .optionsCheck, .callCreate, .callTranscode])) ∨
    (d.Check (draco_transcode_gltf_options p).geometry = true ∧
      d.CreateOk (draco_transcode_gltf_options p) = true ∧
      d.TranscodeOk (draco_transcode_gltf_options p) ⟨inf, outf⟩ = true ∧
      draco_transcode_gltf d (some inf) (some outf) (some p)
        = (0, [.argCheck, .optionsCheck, .callCreate, .callTranscode, .producedOutput])) := by
  by_cases hc : d.Check (draco_transcode_gltf_options p).geometry = false
  · exact Or.inl ⟨hc, by simp [draco_transcode_gltf, hc]⟩
  · rw [Bool.not_eq_false] at hc
    by_cases hcr : d.CreateOk (draco_transcode_gltf_options p) = false
    · exact Or.inr (Or.inl ⟨hc, hcr, by simp [draco_transcode_gltf, hc, hcr]⟩)
    · rw [Bool.not_eq_false] at hcr
      by_cases ht : d.TranscodeOk (draco_transcode_gltf_options p) ⟨inf, outf⟩ = false
      · exact Or.inr (Or.inr (Or.inl
          ⟨hc, hcr, ht, by simp [draco_transcode_gltf, hc, hcr, ht]⟩))
      · rw [Bool.not_eq_false] at ht
        exact Or.inr (Or.inr (Or.inr
          ⟨hc, hcr, ht, by simp [draco_transcode_gltf, hc, hcr, ht]⟩))

/-- Exhaustive case analysis of the buffer-path compress entry point on
non-null arguments with nonzero length: one of five outcomes, determined by
the delegate verdicts in source order. -/
theorem draco_transcode_gltf_from_buffer_cases {σ : Type} (d : Delegate σ)
    (data : List UInt8) (size : Nat) (p : DracoOptions) (v : Nat)
    (hsize : size ≠ 0) :
    (d.Check (draco_transcode_gltf_from_buffer_options p).geometry = false ∧
      draco_transcode_gltf_from_buffer d (some data) size (some p) (some v)
        = ⟨none, some 0, [.argCheck, .optionsCheck]⟩) ∨
    (d.Check (draco_transcode_gltf_from_buffer_options p).geometry = true ∧
      d.DecodeFromBufferToScene data size = none ∧
      draco_transcode_gltf_from_buffer d (some data) size (some p) (some v)
        = ⟨none, some 0, [.argCheck, .optionsCheck, .callDecode]⟩) ∨
    (∃ sc, d.Check (draco_transcode_gltf_from_buffer_options p).geometry = true ∧
      d.DecodeFromBufferToScene data size = some sc ∧
      d.EncodeToBuffer (d.SetDracoCompressionOptions
        (draco_transcode_gltf_from_buffer_options p).geometry sc) = none ∧
      draco_transcode_gltf_from_buffer d (some data) size (some p) (some v)
        = ⟨none, some 0,
            [.argCheck, .optionsCheck, .callDecode, .callApply, .callEncode]⟩) ∨
    (∃ sc out, d.Check (draco_transcode_gltf_from_buffer_options p).geometry = true ∧
      d.DecodeFromBufferToScene data size = some sc ∧
      d.EncodeToBuffer (d.SetDracoCompressionOptions
        (draco_transcode_gltf_from_buffer_options p).geometry sc) = some out ∧
      d.mallocOk out.length = false ∧
      draco_transcode_gltf_from_buffer d (some data) size (some p) (some v)
        = ⟨none, some 0,
            [.argCheck, .optionsCheck, .callDecode, .callApply, .callEncode,
              .callMalloc]⟩) ∨
    (∃ sc out, d.Check (draco_transcode_gltf_from_buffer_options p).geometry = true ∧
      d.DecodeFromBufferToScene data size = some sc ∧
      d.EncodeToBuffer (d.SetDracoCompressionOptions
        (draco_transcode_gltf_from_buffer_options p).geometry sc) = some out ∧
      d.mallocOk out.length = true ∧
      draco_transcode_gltf_from_buffer d (some data) size (some p) (some v)
        = ⟨some out, some out.length,
            [.argCheck, .optionsCheck, .callDecode, .callApply, .callEncode, .callMalloc,
              .producedOutput]⟩) := by
  by_cases hc : d.Check (draco_transcode_gltf_from_buffer_options p).geometry = false
  · exact Or.inl ⟨hc, by simp [draco_transcode_gltf_from_buffer, hc, if_neg hsize]⟩
  · rw [Bool.not_eq_false] at hc
    rcases hdec : d.DecodeFromBufferToScene data size with _ | sc
    · refine Or.inr (Or.inl ⟨hc, rfl, ?_⟩)
      simp [draco_transcode_gltf_from_buffer, hc, if_neg hsize, hdec]
    · rcases henc : d.EncodeToBuffer (d.SetDracoCompressionOptions
          (draco_transcode_gltf_from_buffer_options p).geometry sc) with _ | out
      · refine Or.inr (Or.inr (Or.inl ⟨sc, hc, rfl, henc, ?_⟩))
        simp [draco_transcode_gltf_from_buffer, hc, if_neg hsize, hdec, henc]
      · by_cases hm : d.mallocOk out.length = false
        · refine Or.inr (Or.inr (Or.inr (Or.inl ⟨sc, out, hc, rfl, henc, hm, ?_⟩)))
          simp [draco_transcode_gltf_from_buffer, hc, if_neg hsize, hdec, henc, hm]
        · rw [Bool.not_eq_false] at hm
          refine Or.inr (Or.inr (Or.inr (Or.inr ⟨sc, out, hc, rfl, henc, hm, ?_⟩)))
          simp [draco_transcode_gltf_from_buffer, hc, if_neg hsize, hdec, henc, hm]

/-- Exhaustive case analysis of the buffer-path decompress entry point on
non-null arguments with nonzero length: one of four outcomes. -/
theorem draco_decompress_gltf_to_buffer_cases {σ : Type} (d : Delegate σ)
    (data : List UInt8) (size : Nat) (v : Nat) (hsize : size ≠ 0) :
    (d.DecodeFromBufferToScene data size = none ∧
      draco_decompress_gltf_to_buffer d (some data) size (some v)
        = ⟨none, some 0, [.argCheck, .callDecode]⟩) ∨
    (∃ sc, d.DecodeFromBufferToScene data size = some sc ∧
      d.EncodeToBuffer sc = none ∧
      draco_decompress_gltf_to_buffer d (some data) size (some v)
        = ⟨none, some 0, [.argCheck, .callDecode, .callEncode]⟩) ∨
    (∃ sc out, d.DecodeFromBufferToScene data size = some sc ∧
      d.EncodeToBuffer sc = some out ∧ d.mallocOk out.length = false ∧
      draco_decompress_gltf_to_buffer d (some data) size (some v)
        = ⟨none, some 0, [.argCheck, .callDecode, .callEncode, .callMalloc]⟩) ∨
    (∃ sc out, d.DecodeFromBufferToScene data size = some sc ∧
      d.EncodeToBuffer sc = some out ∧ d.mallocOk out.length = true ∧
      draco_decompress_gltf_to_buffer d (some data) size (some v)
        = ⟨some out, some out.length,
            [.argCheck, .callDecode, .callEncode, .callMalloc, .producedOutput]⟩) := by
  rcases hdec : d.DecodeFromBufferToScene data size with _ | sc
  · exact Or.inl ⟨rfl, by simp [draco_decompress_gltf_to_buffer, if_neg hsize, hdec]⟩
  · rcases henc : d.EncodeToBuffer sc with _ | out
    · refine Or.inr (Or.inl ⟨sc, rfl, henc, ?_⟩)
      simp [draco_decompress_gltf_to_buffer, if_neg hsize, hdec, henc]
    · by_cases hm : d.mallocOk out.length = false
      · refine Or.inr (Or.inr (Or.inl ⟨sc, out, rfl, henc, hm, ?_⟩))
        simp [draco_decompress_gltf_to_buffer, if_neg hsize, hdec, henc, hm]
      · rw [Bool.not_eq_false] at hm
        refine Or.inr (Or.inr (Or.inr ⟨sc, out, rfl, henc, hm, ?_⟩))
        simp [draco_decompress_gltf_to_buffer, if_neg hsize, hdec, henc, hm]

/-- The adapter writes the compression level verbatim into the
configuration. -/
theorem draco_transcode_gltf_options_compression_level (p : DracoOptions) :
    (draco_transcode_gltf_options p).geometry.compression_level
      = p.compression_level := rfl

/-- The spec-modelled validity predicate rejects any configuration with a
negative compression level. -/
theorem specCheck_false_of_neg_level (g : DracoCompressionOptions)
    (h : g.compression_level < 0) : specCheck g = false := by
  simp only [specCheck, decide_eq_false_iff_not]
  rintro ⟨h1, -⟩
  omega

/-- The options record with the spec defaults except `compression_level`
set to the out-of-range value -1. -/
def invalidLevelOptions : DracoOptions :=
  { defaultDracoOptions with compression_level := -1 }

/-- Claim C1: `draco_transcode_gltf` returns exactly one of the five status
codes, each iff its condition: -1 iff some argument is null; on non-null
arguments, -2 iff the populated configuration fails the delegate Check, -3
iff Check passes but transcoder creation fails, -4 iff creation succeeds
but the transcode call fails, and 0 iff the whole sequence succeeds.
Moreover, with the spec-modelled Check, every options record with
`compression_level = -1` yields -2 with a trace containing no delegate
call, so no delegate transcode runs and the output path is untouched. -/
theorem draco_transcode_gltf_status {σ : Type} (d : Delegate σ)
    (inf outf : Option String) (opts : Option DracoOptions) :
    ((draco_transcode_gltf d inf outf opts).1 = 0 ∨
     (draco_transcode_gltf d inf outf opts).1 = -1 ∨
     (draco_transcode_gltf d inf outf opts).1 = -2 ∨
     (draco_transcode_gltf d inf outf opts).1 = -3 ∨
     (draco_transcode_gltf d inf outf opts).1 = -4) ∧
    ((draco_transcode_gltf d inf outf opts).1 = -1 ↔
      inf = none ∨ outf = none ∨ opts = none) ∧
    (∀ i o p, inf = some i → outf = some o → opts = some p →
      (((draco_transcode_gltf d inf outf opts).1 = -2 ↔
          d.Check (draco_transcode_gltf_options p).geometry = false) ∧
       ((draco_transcode_gltf d inf outf opts).1 = -3 ↔
          d.Check (draco_transcode_gltf_options p).geometry = true ∧
          d.CreateOk (draco_transcode_gltf_options p) = false) ∧
       ((draco_transcode_gltf d inf outf opts).1 = -4 ↔
          d.Check (draco_transcode_gltf_options p).geometry = true ∧
          d.CreateOk (draco_transcode_gltf_options p) = true ∧
          d.TranscodeOk (draco_transcode_gltf_options p) ⟨i, o⟩ = false) ∧
       ((draco_transcode_gltf d inf outf opts).1 = 0 ↔
          d.Check (draco_transcode_gltf_options p).geometry = true ∧
          d.CreateOk (draco_transcode_gltf_options p) = true ∧
          d.TranscodeOk (draco_transcode_gltf_options p) ⟨i, o⟩ = true))) ∧
    (d.Check = specCheck →
      ∀ i o p, inf = some i → outf = some o → opts = some p →
        p.compression_level = -1 →
        (draco_transcode_gltf d inf outf opts).1 = -2 ∧
        (draco_transcode_gltf d inf outf opts).2 = [Ev.argCheck, Ev.optionsCheck]) := by
  rcases inf with _ | i <;> rcases outf with _ | o <;> rcases opts with _ | p
  pick_goal 8
  · rcases draco_transcode_gltf_file_cases d i o p with
        ⟨hc, hr⟩ | ⟨hc, hcr, hr⟩ | ⟨hc, hcr, ht, hr⟩ | ⟨hc, hcr, ht, hr⟩ <;>
      refine ⟨by rw [hr]; simp, by rw [hr]; simp, ?_, ?_⟩
    · intro i2 o2 p2 hi ho hp
      rw [Option.some.injEq] at hi ho hp
      subst hi
      subst ho
      subst hp
      rw [hr]
      refine ⟨?_, ?_, ?_, ?_⟩ <;> simp [hc]
    · intro hcheck i2 o2 p2 hi ho hp hlev
      rw [hr]
      exact ⟨rfl, rfl⟩
    · intro i2 o2 p2 hi ho hp
      rw [Option.some.injEq] at hi ho hp
      subst hi
      subst ho
      subst hp
      rw [hr]
      refine ⟨?_, ?_, ?_, ?_⟩ <;> simp [hc, hcr]
    · intro hcheck i2 o2 p2 hi ho hp hlev
      rw [Option.some.injEq] at hp
      subst hp
      rw [hcheck] at hc
      rw [specCheck_false_of_neg_level (draco_transcode_gltf_options p).geometry
        (by rw [draco_transcode_gltf_options_compression_level, hlev]; decide)] at hc
      exact absurd hc (by decide)
    · intro i2 o2 p2 hi ho hp
      rw [Option.some.injEq] at hi ho hp
      subst hi
      subst ho
      subst hp
      rw [hr]
      refine ⟨?_, ?_, ?_, ?_⟩ <;> simp [hc, hcr, ht]
    · intro hcheck i2 o2 p2 hi ho hp hlev
      rw [Option.some.injEq] at hp
      subst hp
      rw [hcheck] at hc
      rw [specCheck_false_of_neg_level (draco_transcode_gltf_options p).geometry
        (by rw [draco_transcode_gltf_options_compression_level, hlev]; decide)] at hc
      exact absurd hc (by decide)
    · intro i2 o2 p2 hi ho hp
      rw [Option.some.injEq] at hi ho hp
      subst hi
      subst ho
      subst hp
      rw [hr]
      refine ⟨?_, ?_, ?_, ?_⟩ <;> simp [hc, hcr, ht]
    · intro hcheck i2 o2 p2 hi ho hp hlev
      rw [Option.some.injEq] at hp
      subst hp
      rw [hcheck] at hc
      rw [specCheck_false_of_neg_level (draco_transcode_gltf_options p).geometry
        (by rw [draco_transcode_gltf_options_compression_level, hlev]; decide)] at hc
      exact absurd hc (by decide)
  all_goals refine ⟨by simp [draco_transcode_gltf], by simp [draco_transcode_gltf], ?_, ?_⟩ <;>
    intros <;> simp_all

/-- Witness for C1: with the spec-modelled delegate, concrete file names
and the out-of-range options record, the call returns -2 and its trace
holds only the two checks. -/
theorem draco_transcode_gltf_status_witness :
    (draco_transcode_gltf specDelegate (some "in.gltf") (some "out.gltf")
        (some invalidLevelOptions)).1 = -2 ∧
    (draco_transcode_gltf specDelegate (some "in.gltf") (some "out.gltf")
        (some invalidLevelOptions)).2 = [Ev.argCheck, Ev.optionsCheck] :=
  (draco_transcode_gltf_status specDelegate (some "in.gltf") (some "out.gltf")
      (some invalidLevelOptions)).2.2.2 rfl "in.gltf" "out.gltf" invalidLevelOptions
      rfl rfl rfl rfl

/-- Claim C3: in every entry point the null-argument (and zero-length)
check is evaluated before the options validity check, which is evaluated
before any delegate call; consequently, for every options record failing
Check, the file path returns -2 and the buffer compress path returns null,
in both cases with no delegate call executed and no output produced. -/
theorem checks_precede_delegate_calls {σ : Type} (d : Delegate σ)
    (inf outf : Option String) (opts : Option DracoOptions)
    (data : Option (List UInt8)) (size : Nat) (osz : Option Nat) :
    argCheckBeforeOptionsCheck (draco_transcode_gltf d inf outf opts).2 ∧
    optionsCheckBeforeDelegates (draco_transcode_gltf d inf outf opts).2 ∧
    argCheckBeforeDelegates (draco_transcode_gltf d inf outf opts).2 ∧
    argCheckBeforeOptionsCheck
      (draco_transcode_gltf_from_buffer d data size opts osz).trace ∧
    optionsCheckBeforeDelegates
      (draco_transcode_gltf_from_buffer d data size opts osz).trace ∧
    argCheckBeforeDelegates
      (draco_transcode_gltf_from_buffer d data size opts osz).trace ∧
    argCheckBeforeDelegates (draco_decompress_gltf_to_buffer d data size osz).trace ∧
    (∀ p, opts = some p →
      d.Check (draco_transcode_gltf_options p).geometry = false →
      (∀ i o, inf = some i → outf = some o →
        (draco_transcode_gltf d inf outf opts).1 = -2 ∧
        (∀ e ∈ (draco_transcode_gltf d inf outf opts).2, e.isDelegate = false) ∧
        Ev.producedOutput ∉ (draco_transcode_gltf d inf outf opts).2) ∧
      (∀ dta v, data = some dta → osz = some v → size ≠ 0 →
        (draco_transcode_gltf_from_buffer d data size opts osz).ret = none ∧
        (∀ e ∈ (draco_transcode_gltf_from_buffer d data size opts osz).trace,
          e.isDelegate = false) ∧
        Ev.producedOutput ∉
          (draco_transcode_gltf_from_buffer d data size opts osz).trace)) := by
  refine ⟨?_, ?_, ?_, ?_, ?_, ?_, ?_, ?_⟩
  · rcases draco_transcode_gltf_trace_cases d inf outf opts with h | h | h | h | h <;>
      rw [h] <;> decide
  · rcases draco_transcode_gltf_trace_cases d inf outf opts with h | h | h | h | h <;>
      rw [h] <;> decide
  · rcases draco_transcode_gltf_trace_cases d inf outf opts with h | h | h | h | h <;>
      rw [h] <;> decide
  · rcases draco_transcode_gltf_from_buffer_trace_cases d data size opts osz with
        h | h | h | h | h | h <;> rw [h] <;> decide
  · rcases draco_transcode_gltf_from_buffer_trace_cases d data size opts osz with
        h | h | h | h | h | h <;> rw [h] <;> decide
  · rcases draco_transcode_gltf_from_buffer_trace_cases d data size opts osz with
        h | h | h | h | h | h <;> rw [h] <;> decide
  · rcases draco_decompress_gltf_to_buffer_trace_cases d data size osz with
        h | h | h | h | h <;> rw [h] <;> decide
  · intro p hp hc
    subst hp
    constructor
    · intro i o hi ho
      subst hi
      subst ho
      rcases draco_transcode_gltf_file_cases d i o p with
          ⟨hc2, hr⟩ | ⟨hc2, h3, hr⟩ | ⟨hc2, h3, h4, hr⟩ | ⟨hc2, h3, h4, hr⟩
      · rw [hr]
        exact ⟨rfl, by decide, by decide⟩
      all_goals (rw [hc] at hc2; exact absurd hc2 (by decide))
    · intro dta v hd hv hs
      subst hd
      subst hv
      rw [options_translation_eq p] at hc
      rcases draco_transcode_gltf_from_buffer_cases d dta size p v hs with
          ⟨hc2, hr⟩ | ⟨hc2, h3, hr⟩ | ⟨sc, hc2, h3, h4, hr⟩ |
          ⟨sc, out, hc2, h3, h4, h5, hr⟩ | ⟨sc, out, hc2, h3, h4, h5, hr⟩
      · rw [hr]
        exact ⟨rfl, by decide, by decide⟩
      all_goals (rw [hc] at hc2; exact absurd hc2 (by decide))

/-- Witness for C3 at the spec-modelled delegate and the out-of-range
options record: the buffer compress path rejects with a null return, no
delegate call and no output. -/
theorem checks_precede_delegate_calls_witness :
    (draco_transcode_gltf_from_buffer specDelegate (some [1]) 1
        (some invalidLevelOptions) (some 4)).ret = none ∧
    (∀ e ∈ (draco_transcode_gltf_from_buffer specDelegate (some [1]) 1
        (some invalidLevelOptions) (some 4)).trace, e.isDelegate = false) ∧
    Ev.producedOutput ∉
      (draco_transcode_gltf_from_buffer specDelegate (some [1]) 1
        (some invalidLevelOptions) (some 4)).trace :=
  ((checks_precede_delegate_calls specDelegate (some "a.gltf") (some "b.gltf")
      (some invalidLevelOptions) (some [1]) 1 (some 4)).2.2.2.2.2.2.2
    invalidLevelOptions rfl (by decide)).2 [1] 4 rfl rfl (by decide)

/-- Claim C8: `draco_free_buffer` called with a null pointer is a no-op:
the heap is unchanged and the call returns normally (the function is total);
for a non-null block currently allocated it releases exactly that block:
one occurrence of that block is removed, every other block's count is
unchanged, and the heap shrinks by exactly one entry. -/
theorem draco_free_buffer_spec (heap : List Nat) (b : Nat) (hb : b ∈ heap) :
    draco_free_buffer none heap = heap ∧
    draco_free_buffer (some b) heap = heap.erase b ∧
    (draco_free_buffer (some b) heap).count b = heap.count b - 1 ∧
    (∀ x, x ≠ b → (draco_free_buffer (some b) heap).count x = heap.count x) ∧
    (draco_free_buffer (some b) heap).length = heap.length - 1 := by
  refine ⟨rfl, rfl, ?_, ?_, ?_⟩
  · simp [draco_free_buffer, List.count_erase_self]
  · intro x hx
    simp [draco_free_buffer, List.count_erase_of_ne hx]
  · simp [draco_free_buffer, List.length_erase_of_mem hb]

/-- Witness for C8 at the concrete heap `[1, 2, 2, 3]` and block `2`. -/
theorem draco_free_buffer_spec_witness :
    draco_free_buffer none [1, 2, 2, 3] = [1, 2, 2, 3] ∧
    draco_free_buffer (some 2) [1, 2, 2, 3] = List.erase [1, 2, 2, 3] 2 ∧
    (draco_free_buffer (some 2) [1, 2, 2, 3]).count 2 = List.count 2 [1, 2, 2, 3] - 1 ∧
    (∀ x, x ≠ 2 → (draco_free_buffer (some 2) [1, 2, 2, 3]).count x
        = List.count x [1, 2, 2, 3]) ∧
    (draco_free_buffer (some 2) [1, 2, 2, 3]).length = List.length [1, 2, 2, 3] - 1 :=
  draco_free_buffer_spec [1, 2, 2, 3] 2 (by decide)

/-- Claim C9: when a buffer entry point fails its initial argument check
(null input, zero length, null options for the compress path, or null
output-size pointer), it returns null and never writes through
`output_size`: the caller's value there is exactly what it was before the
call. -/
theorem buffer_arg_failure_leaves_output_size {σ : Type} (d : Delegate σ)
    (input_data : Option (List UInt8)) (input_size : Nat)
    (opts : Option DracoOptions) (osz : Option Nat) :
    ((input_data = none ∨ input_size = 0 ∨ opts = none ∨ osz = none) →
      (draco_transcode_gltf_from_buffer d input_data input_size opts osz).ret = none ∧
      (draco_transcode_gltf_from_buffer d input_data input_size opts osz).out_size = osz) ∧
    ((input_data = none ∨ input_size = 0 ∨ osz = none) →
      (draco_decompress_gltf_to_buffer d input_data input_size osz).ret = none ∧
      (draco_decompress_gltf_to_buffer d input_data input_size osz).out_size = osz) := by
  constructor
  · rintro (h | h | h | h) <;>
      rcases input_data with _ | dta <;> rcases opts with _ | p <;> rcases osz with _ | v <;>
      simp_all [draco_transcode_gltf_from_buffer]
  · rintro (h | h | h) <;>
      rcases input_data with _ | dta <;> rcases osz with _ | v <;>
      simp_all [draco_decompress_gltf_to_buffer]

/-- Witness for C9: null input data, caller value 7 at output size. -/
theorem buffer_arg_failure_leaves_output_size_witness :
    (draco_transcode_gltf_from_buffer specDelegate none 3
        (some defaultDracoOptions) (some 7)).ret = none ∧
    (draco_transcode_gltf_from_buffer specDelegate none 3
        (some defaultDracoOptions) (some 7)).out_size = some 7 := by
  have h := buffer_arg_failure_leaves_output_size specDelegate none 3
    (some defaultDracoOptions) (some 7)
  exact h.1 (Or.inl rfl)

/-- Claim C2 as frozen is false on the code: it says `*output_size` is
exactly 0 immediately after any failing call, including the
invalid-argument failure, but the store `*output_size = 0` happens only
after the argument check passes.  Concretely: `input_data = null`,
`input_size = 0`, caller value 5 at `*output_size` — the call fails (null
return) yet `*output_size` is still 5, not 0. -/
theorem buffer_output_size_claim_counterexample :
    (draco_transcode_gltf_from_buffer specDelegate none 0
        (some defaultDracoOptions) (some 5)).ret = none ∧
    (draco_transcode_gltf_from_buffer specDelegate none 0
        (some defaultDracoOptions) (some 5)).out_size = some 5 ∧
    some 5 ≠ (some 0 : Option Nat) := by
  refine ⟨rfl, rfl, by decide⟩

/-- Claim C2, amended: for calls that pass the argument check,
`*output_size` is set to 0 before any delegate work begins, any failure
after that point leaves it exactly 0, and on success it is overwritten from
0 to the byte length of the returned heap block; on an argument-check
failure `*output_size` is left untouched. -/
theorem buffer_output_size_spec {σ : Type} (d : Delegate σ)
    (data : List UInt8) (input_size : Nat) (p : DracoOptions) (osz : Nat)
    (hsize : input_size ≠ 0) :
    ((draco_transcode_gltf_from_buffer d (some data) input_size (some p) (some osz)).ret
        = none →
      (draco_transcode_gltf_from_buffer d (some data) input_size (some p)
          (some osz)).out_size = some 0) ∧
    (∀ b, (draco_transcode_gltf_from_buffer d (some data) input_size (some p)
        (some osz)).ret = some b →
      (draco_transcode_gltf_from_buffer d (some data) input_size (some p)
          (some osz)).out_size = some b.length) ∧
    ((draco_decompress_gltf_to_buffer d (some data) input_size (some osz)).ret = none →
      (draco_decompress_gltf_to_buffer d (some data) input_size (some osz)).out_size
        = some 0) ∧
    (∀ b, (draco_decompress_gltf_to_buffer d (some data) input_size (some osz)).ret
        = some b →
      (draco_decompress_gltf_to_buffer d (some data) input_size (some osz)).out_size
        = some b.length) := by
  refine ⟨?_, ?_, ?_, ?_⟩ <;>
    simp only [draco_transcode_gltf_from_buffer, draco_decompress_gltf_to_buffer,
      if_neg hsize]
  · split
    · simp
    · rcases h : d.DecodeFromBufferToScene data input_size with _ | sc <;> simp only [h]
      · simp
      · rcases h2 : d.EncodeToBuffer (d.SetDracoCompressionOptions
            (draco_transcode_gltf_from_buffer_options p).geometry sc) with _ | out <;>
          simp only [h2]
        · simp
        · split <;> simp
  · split
    · simp
    · rcases h : d.DecodeFromBufferToScene data input_size with _ | sc <;> simp only [h]
      · simp
      · rcases h2 : d.EncodeToBuffer (d.SetDracoCompressionOptions
            (draco_transcode_gltf_from_buffer_options p).geometry sc) with _ | out <;>
          simp only [h2]
        · simp
        · split <;> simp_all
  · rcases h : d.DecodeFromBufferToScene data input_size with _ | sc <;> simp only [h]
    · simp
    · rcases h2 : d.EncodeToBuffer sc with _ | out <;> simp only [h2]
      · simp
      · split <;> simp
  · rcases h : d.DecodeFromBufferToScene data input_size with _ | sc <;> simp only [h]
    · simp
    · rcases h2 : d.EncodeToBuffer sc with _ | out <;> simp only [h2]
      · simp
      · split <;> simp_all

/-- Witness for the amended C2 at concrete inputs: a succeeding compress
call reports the returned block's length, and a failing (invalid options)
call reports 0. -/
theorem buffer_output_size_spec_witness :
    (draco_transcode_gltf_from_buffer specDelegate (some [1, 2]) 2
        (some defaultDracoOptions) (some 9)).ret = some [0, 1, 2] ∧
    (draco_transcode_gltf_from_buffer specDelegate (some [1, 2]) 2
        (some defaultDracoOptions) (some 9)).out_size = some 3 := by
  have h := buffer_output_size_spec specDelegate [1, 2] 2 defaultDracoOptions 9 (by decide)
  exact ⟨by decide, h.2.1 [0, 1, 2] (by decide)⟩

/-- Claim C10: the two inlined options-translation blocks (file path and
buffer path) compute the same internal geometry configuration for every
options record, hence every validity predicate gives the same verdict on
both; consequently, on non-null arguments, the file path rejects a record
with `-2` exactly when the buffer path stops at the options check (its
trace is exactly the argument check followed by the options check, with a
null return). -/
theorem options_blocks_agree {σ : Type} (d : Delegate σ) (opts : DracoOptions)
    (inf outf : String) (data : List UInt8) (size : Nat) (osz : Nat)
    (hsize : size ≠ 0) :
    draco_transcode_gltf_options opts = draco_transcode_gltf_from_buffer_options opts ∧
    d.Check (draco_transcode_gltf_options opts).geometry
      = d.Check (draco_transcode_gltf_from_buffer_options opts).geometry ∧
    ((draco_transcode_gltf d (some inf) (some outf) (some opts)).1 = -2 ↔
      (draco_transcode_gltf_from_buffer d (some data) size (some opts) (some osz)).trace
          = [Ev.argCheck, Ev.optionsCheck] ∧
      (draco_transcode_gltf_from_buffer d (some data) size (some opts) (some osz)).ret
          = none) := by
  refine ⟨options_translation_eq opts, rfl, ?_⟩
  rcases draco_transcode_gltf_file_cases d inf outf opts with
      ⟨hc, hr⟩ | ⟨hc, _, hr⟩ | ⟨hc, _, _, hr⟩ | ⟨hc, _, _, hr⟩ <;>
    rcases draco_transcode_gltf_from_buffer_cases d data size opts osz hsize with
        ⟨hc2, hr2⟩ | ⟨hc2, _, hr2⟩ | ⟨sc, hc2, _, _, hr2⟩ |
        ⟨sc, out, hc2, _, _, _, hr2⟩ | ⟨sc, out, hc2, _, _, _, hr2⟩ <;>
      rw [options_translation_eq opts] at hc <;>
      rw [hc] at hc2 <;> first
      | exact absurd hc2 (by decide)
      | (rw [hr, hr2]; simp)

/-- Witness for C10 at the default options record and concrete arguments. -/
theorem options_blocks_agree_witness :
    draco_transcode_gltf_options defaultDracoOptions
      = draco_transcode_gltf_from_buffer_options defaultDracoOptions ∧
    specDelegate.Check (draco_transcode_gltf_options defaultDracoOptions).geometry
      = specDelegate.Check
          (draco_transcode_gltf_from_buffer_options defaultDracoOptions).geometry ∧
    ((draco_transcode_gltf specDelegate (some "in.gltf") (some "out.gltf")
        (some defaultDracoOptions)).1 = -2 ↔
      (draco_transcode_gltf_from_buffer specDelegate (some [1]) 1
          (some defaultDracoOptions) (some 0)).trace = [Ev.argCheck, Ev.optionsCheck] ∧
      (draco_transcode_gltf_from_buffer specDelegate (some [1]) 1
          (some defaultDracoOptions) (some 0)).ret = none) :=
  options_blocks_agree specDelegate defaultDracoOptions "in.gltf" "out.gltf" [1] 1 0
    (by decide)

/-- Claim C4: the options adapter maps every `DracoOptions` field exactly
once and verbatim: the compression level is copied as-is, the position bit
depth goes through the dedicated `SetQuantizationBits` setter, and the six
other bit depths are copied 1:1 into their plain integer slots; the single
validity gate is one Check call over the fully populated configuration
(exactly one options-check event once the arguments pass, none before), so
every invalid configuration surfaces as the same error kind (-2 on the
file path, null on the buffer path), whichever field is invalid. -/
theorem options_adapter_spec {σ : Type} (d : Delegate σ) (p : DracoOptions)
    (inf outf : String) (data : List UInt8) (size : Nat) (osz : Nat)
    (hsize : size ≠ 0) :
    (draco_transcode_gltf_from_buffer_options p).geometry.compression_level
        = p.compression_level ∧
    (draco_transcode_gltf_from_buffer_options p).geometry.quantization_position
        = SpatialQuantizationOptions.SetQuantizationBits
            defaultTranscodingOptions.geometry.quantization_position
            p.quantization_position ∧
    (draco_transcode_gltf_from_buffer_options p).geometry.quantization_position.quantization_bits
        = p.quantization_position ∧
    (draco_transcode_gltf_from_buffer_options p).geometry.quantization_bits_tex_coord
        = p.quantization_tex_coord ∧
    (draco_transcode_gltf_from_buffer_options p).geometry.quantization_bits_normal
        = p.quantization_normal ∧
    (draco_transcode_gltf_from_buffer_options p).geometry.quantization_bits_color
        = p.quantization_color ∧
    (draco_transcode_gltf_from_buffer_options p).geometry.quantization_bits_tangent
        = p.quantization_tangent ∧
    (draco_transcode_gltf_from_buffer_options p).geometry.quantization_bits_weight
        = p.quantization_weight ∧
    (draco_transcode_gltf_from_buffer_options p).geometry.quantization_bits_generic
        = p.quantization_generic ∧
    (draco_transcode_gltf d (some inf) (some outf) (some p)).2.count Ev.optionsCheck
        = 1 ∧
    (draco_transcode_gltf_from_buffer d (some data) size (some p) (some osz)).trace.count
        Ev.optionsCheck = 1 ∧
    (draco_transcode_gltf d none (some outf) (some p)).2.count Ev.optionsCheck = 0 ∧
    (d.Check (draco_transcode_gltf_from_buffer_options p).geometry = false →
      (draco_transcode_gltf d (some inf) (some outf) (some p)).1 = -2 ∧
      (draco_transcode_gltf_from_buffer d (some data) size (some p) (some osz)).ret
        = none) := by
  refine ⟨rfl, rfl, rfl, rfl, rfl, rfl, rfl, rfl, rfl, ?_, ?_, rfl, ?_⟩
  · rcases draco_transcode_gltf_file_cases d inf outf p with
        ⟨h1, hr⟩ | ⟨h1, h2, hr⟩ | ⟨h1, h2, h3, hr⟩ | ⟨h1, h2, h3, hr⟩ <;>
      rw [hr] <;> rfl
  · rcases draco_transcode_gltf_from_buffer_cases d data size p osz hsize with
        ⟨h1, hr⟩ | ⟨h1, h2, hr⟩ | ⟨sc, h1, h2, h3, hr⟩ |
        ⟨sc, out, h1, h2, h3, h4, hr⟩ | ⟨sc, out, h1, h2, h3, h4, hr⟩ <;>
      rw [hr] <;> rfl
  · intro hc
    constructor
    · rcases draco_transcode_gltf_file_cases d inf outf p with
          ⟨h1, hr⟩ | ⟨h1, h2, hr⟩ | ⟨h1, h2, h3, hr⟩ | ⟨h1, h2, h3, hr⟩
      · rw [hr]
      all_goals (rw [options_translation_eq p, hc] at h1; exact absurd h1 (by decide))
    · rcases draco_transcode_gltf_from_buffer_cases d data size p osz hsize with
          ⟨h1, hr⟩ | ⟨h1, h2, hr⟩ | ⟨sc, h1, h2, h3, hr⟩ |
          ⟨sc, out, h1, h2, h3, h4, hr⟩ | ⟨sc, out, h1, h2, h3, h4, hr⟩
      · rw [hr]
      all_goals (rw [hc] at h1; exact absurd h1 (by decide))

/-- Witness for C4 at the spec-modelled delegate with an invalid
quantization field (negative normal bit depth), showing the same error kind
as an invalid compression level: -2 on the file path, null on the buffer
path. -/
theorem options_adapter_spec_witness :
    (draco_transcode_gltf specDelegate (some "x.gltf") (some "y.gltf")
        (some { defaultDracoOptions with quantization_normal := -3 })).1 = -2 ∧
    (draco_transcode_gltf_from_buffer specDelegate (some [7]) 1
        (some { defaultDracoOptions with quantization_normal := -3 })
        (some 2)).ret = none :=
  (options_adapter_spec specDelegate
      { defaultDracoOptions with quantization_normal := -3 }
      "x.gltf" "y.gltf" [7] 1 2 (by decide)).2.2.2.2.2.2.2.2.2.2.2.2 (by decide)

/-- Claim C5: on arguments passing the null/zero checks and options passing
Check, the compress buffer path performs exactly the sequence decode →
apply the validated configuration to the scene → encode → allocate a block
of exactly the encoder output size and copy into it, returning the owned
block and its byte length; a failure at decode, encode or allocation
returns null instead, with no output produced. -/
theorem transcode_buffer_pipeline {σ : Type} (d : Delegate σ)
    (data : List UInt8) (size : Nat) (p : DracoOptions) (osz : Nat)
    (hsize : size ≠ 0)
    (hcheck : d.Check (draco_transcode_gltf_from_buffer_options p).geometry = true) :
    (d.DecodeFromBufferToScene data size = none →
      draco_transcode_gltf_from_buffer d (some data) size (some p) (some osz)
        = ⟨none, some 0, [.argCheck, .optionsCheck, .callDecode]⟩) ∧
    (∀ sc, d.DecodeFromBufferToScene data size = some sc →
      (d.EncodeToBuffer (d.SetDracoCompressionOptions
          (draco_transcode_gltf_from_buffer_options p).geometry sc) = none →
        draco_transcode_gltf_from_buffer d (some data) size (some p) (some osz)
          = ⟨none, some 0,
              [.argCheck, .optionsCheck, .callDecode, .callApply, .callEncode]⟩) ∧
      (∀ out, d.EncodeToBuffer (d.SetDracoCompressionOptions
          (draco_transcode_gltf_from_buffer_options p).geometry sc) = some out →
        (d.mallocOk out.length = false →
          draco_transcode_gltf_from_buffer d (some data) size (some p) (some osz)
            = ⟨none, some 0, [.argCheck, .optionsCheck, .callDecode, .callApply,
                .callEncode, .callMalloc]⟩) ∧
        (d.mallocOk out.length = true →
          draco_transcode_gltf_from_buffer d (some data) size (some p) (some osz)
            = ⟨some out, some out.length, [.argCheck, .optionsCheck, .callDecode,
                .callApply, .callEncode, .callMalloc, .producedOutput]⟩))) ∧
    ((draco_transcode_gltf_from_buffer d (some data) size (some p) (some osz)).ret
        = none →
      Ev.producedOutput ∉
        (draco_transcode_gltf_from_buffer d (some data) size (some p) (some osz)).trace) := by
  rcases draco_transcode_gltf_from_buffer_cases d data size p osz hsize with
      ⟨h1, hr⟩ | ⟨h1, h2, hr⟩ | ⟨sc, h1, h2, h3, hr⟩ |
      ⟨sc, out, h1, h2, h3, h4, hr⟩ | ⟨sc, out, h1, h2, h3, h4, hr⟩
  · rw [hcheck] at h1
    exact absurd h1 (by decide)
  · rw [hr]
    refine ⟨fun _ => rfl, ?_, fun _ => by decide⟩
    intro sc2 hsc2
    rw [h2] at hsc2
    exact absurd hsc2 (by simp)
  · rw [hr]
    refine ⟨?_, ?_, fun _ => by decide⟩
    · intro h
      rw [h2] at h
      exact absurd h (by simp)
    · intro sc2 hsc2
      rw [h2, Option.some.injEq] at hsc2
      subst hsc2
      refine ⟨fun _ => rfl, ?_⟩
      intro out2 hout2
      rw [h3] at hout2
      exact absurd hout2 (by simp)
  · rw [hr]
    refine ⟨?_, ?_, fun _ => by decide⟩
    · intro h
      rw [h2] at h
      exact absurd h (by simp)
    · intro sc2 hsc2
      rw [h2, Option.some.injEq] at hsc2
      subst hsc2
      refine ⟨?_, ?_⟩
      · intro h
        rw [h3] at h
        exact absurd h (by simp)
      · intro out2 hout2
        rw [h3, Option.some.injEq] at hout2
        subst hout2
        refine ⟨fun _ => rfl, ?_⟩
        intro hm
        rw [h4] at hm
        exact absurd hm (by decide)
  · rw [hr]
    refine ⟨?_, ?_, ?_⟩
    · intro h
      rw [h2] at h
      exact absurd h (by simp)
    · intro sc2 hsc2
      rw [h2, Option.some.injEq] at hsc2
      subst hsc2
      refine ⟨?_, ?_⟩
      · intro h
        rw [h3] at h
        exact absurd h (by simp)
      · intro out2 hout2
        rw [h3, Option.some.injEq] at hout2
        subst hout2
        refine ⟨?_, fun _ => rfl⟩
        intro hm
        rw [h4] at hm
        exact absurd hm (by decide)
    · intro h
      exact absurd h (by simp)

/-- Witness for C5 at the spec-modelled delegate and default options: the
pipeline succeeds and returns the encoder output with its size. -/
theorem transcode_buffer_pipeline_witness :
    draco_transcode_gltf_from_buffer specDelegate (some [5, 6]) 2
        (some defaultDracoOptions) (some 11)
      = ⟨some [0, 5, 6], some 3,
          [.argCheck, .optionsCheck, .callDecode, .callApply, .callEncode, .callMalloc,
            .producedOutput]⟩ :=
  ((((transcode_buffer_pipeline specDelegate [5, 6] 2 defaultDracoOptions 11
      (by decide) (by decide)).2.1 [5, 6] rfl).2 [0, 5, 6] rfl).2 rfl)


/-- Claim C6: the decompress buffer path decodes the input to a scene and
encodes exactly that scene, with no compression configuration applied: it
takes no options record, its trace never contains an options check or a
compression-options application, and on success it returns the owned block
with its size, on failure null. -/
theorem decompress_buffer_pipeline {σ : Type} (d : Delegate σ)
    (data : Option (List UInt8)) (size : Nat) (osz : Option Nat) :
    Ev.optionsCheck ∉ (draco_decompress_gltf_to_buffer d data size osz).trace ∧
    Ev.callApply ∉ (draco_decompress_gltf_to_buffer d data size osz).trace ∧
    (∀ dta v, data = some dta → osz = some v → size ≠ 0 →
      (d.DecodeFromBufferToScene dta size = none →
        draco_decompress_gltf_to_buffer d data size osz
          = ⟨none, some 0, [.argCheck, .callDecode]⟩) ∧
      (∀ sc, d.DecodeFromBufferToScene dta size = some sc →
        (d.EncodeToBuffer sc = none →
          draco_decompress_gltf_to_buffer d data size osz
            = ⟨none, some 0, [.argCheck, .callDecode, .callEncode]⟩) ∧
        (∀ out, d.EncodeToBuffer sc = some out →
          (d.mallocOk out.length = false →
            draco_decompress_gltf_to_buffer d data size osz
              = ⟨none, some 0, [.argCheck, .callDecode, .callEncode, .callMalloc]⟩) ∧
          (d.mallocOk out.length = true →
            draco_decompress_gltf_to_buffer d data size osz
              = ⟨some out, some out.length,
                  [.argCheck, .callDecode, .callEncode, .callMalloc,
                    .producedOutput]⟩)))) := by
  refine ⟨?_, ?_, ?_⟩
  · rcases draco_decompress_gltf_to_buffer_trace_cases d data size osz with
        h | h | h | h | h <;> rw [h] <;> decide
  · rcases draco_decompress_gltf_to_buffer_trace_cases d data size osz with
        h | h | h | h | h <;> rw [h] <;> decide
  · intro dta v hd hv hs
    subst hd
    subst hv
    rcases draco_decompress_gltf_to_buffer_cases d dta size v hs with
        ⟨h2, hr⟩ | ⟨sc, h2, h3, hr⟩ | ⟨sc, out, h2, h3, h4, hr⟩ |
        ⟨sc, out, h2, h3, h4, hr⟩
    · rw [hr]
      refine ⟨fun _ => rfl, ?_⟩
      intro sc2 hsc2
      rw [h2] at hsc2
      exact absurd hsc2 (by simp)
    · rw [hr]
      refine ⟨?_, ?_⟩
      · intro h
        rw [h2] at h
        exact absurd h (by simp)
      · intro sc2 hsc2
        rw [h2, Option.some.injEq] at hsc2
        subst hsc2
        refine ⟨fun _ => rfl, ?_⟩
        intro out2 hout2
        rw [h3] at hout2
        exact absurd hout2 (by simp)
    · rw [hr]
      refine ⟨?_, ?_⟩
      · intro h
        rw [h2] at h
        exact absurd h (by simp)
      · intro sc2 hsc2
        rw [h2, Option.some.injEq] at hsc2
        subst hsc2
        refine ⟨?_, ?_⟩
        · intro h
          rw [h3] at h
          exact absurd h (by simp)
        · intro out2 hout2
          rw [h3, Option.some.injEq] at hout2
          subst hout2
          refine ⟨fun _ => rfl, ?_⟩
          intro hm
          rw [h4] at hm
          exact absurd hm (by decide)
    · rw [hr]
      refine ⟨?_, ?_⟩
      · intro h
        rw [h2] at h
        exact absurd h (by simp)
      · intro sc2 hsc2
        rw [h2, Option.some.injEq] at hsc2
        subst hsc2
        refine ⟨?_, ?_⟩
        · intro h
          rw [h3] at h
          exact absurd h (by simp)
        · intro out2 hout2
          rw [h3, Option.some.injEq] at hout2
          subst hout2
          refine ⟨?_, fun _ => rfl⟩
          intro hm
          rw [h4] at hm
          exact absurd hm (by decide)

/-- Witness for C6: a successful decompress of a concrete buffer returns
the encoder output unchanged, with its size. -/
theorem decompress_buffer_pipeline_witness :
    draco_decompress_gltf_to_buffer specDelegate (some [9, 9]) 2 (some 4)
      = ⟨some [0, 9, 9], some 3,
          [.argCheck, .callDecode, .callEncode, .callMalloc, .producedOutput]⟩ :=
  ((((decompress_buffer_pipeline specDelegate (some [9, 9]) 2 (some 4)).2.2
      [9, 9] 4 rfl rfl (by decide)).2 [9, 9] rfl).2 [0, 9, 9] rfl).2 rfl

/-- Claim C7: the compress-then-decompress round trip.  The codec itself is
not under src/, so its properties are modelled from the spec as hypotheses
on the abstract delegate: decoding the input succeeds (a valid glTF
buffer), encoding always succeeds with a nonempty buffer, allocation
succeeds, applying compression options preserves geometric equivalence
(the spec says it mutates only scene-level compression metadata), and an
encode-decode round trip through the delegate yields an equivalent scene
(within the quantization error bounds the abstract relation `equiv`
represents).  Under these, compressing a buffer and decompressing the
result both succeed, and the final buffer decodes to a scene equivalent to
the one decoded from the original input. -/
theorem transcode_roundtrip {σ : Type} (d : Delegate σ) (equiv : σ → σ → Prop)
    (data : List UInt8) (size : Nat) (p : DracoOptions) (osz1 osz2 : Nat) (s0 : σ)
    (hsize : size ≠ 0)
    (hcheck : d.Check (draco_transcode_gltf_from_buffer_options p).geometry = true)
    (hvalid : d.DecodeFromBufferToScene data size = some s0)
    (hmalloc : ∀ n, d.mallocOk n = true)
    (hencode : ∀ s : σ, ∃ b, d.EncodeToBuffer s = some b ∧ b.length ≠ 0)
    (hroundtrip : ∀ (s : σ) (b : List UInt8), d.EncodeToBuffer s = some b →
      ∃ s2, d.DecodeFromBufferToScene b b.length = some s2 ∧ equiv s s2)
    (happly : ∀ g s, equiv s (d.SetDracoCompressionOptions g s))
    (htrans : Transitive equiv) :
    ∃ out1 out2 sfinal,
      (draco_transcode_gltf_from_buffer d (some data) size (some p) (some osz1)).ret
        = some out1 ∧
      (draco_decompress_gltf_to_buffer d (some out1) out1.length (some osz2)).ret
        = some out2 ∧
      d.DecodeFromBufferToScene out2 out2.length = some sfinal ∧
      equiv s0 sfinal := by
  obtain ⟨out1, hout1, hlen1⟩ := hencode (d.SetDracoCompressionOptions
    (draco_transcode_gltf_from_buffer_options p).geometry s0)
  have hcompress :
      (draco_transcode_gltf_from_buffer d (some data) size (some p) (some osz1)).ret
        = some out1 := by
    simp [draco_transcode_gltf_from_buffer, if_neg hsize, hcheck, hvalid, hout1,
      hmalloc out1.length]
  obtain ⟨s2, hdec2, hequiv12⟩ := hroundtrip _ out1 hout1
  obtain ⟨out2, hout2, hlen2⟩ := hencode s2
  have hne1 : out1 ≠ [] := by
    intro h
    rw [h] at hlen1
    exact hlen1 rfl
  have hdecompress :
      (draco_decompress_gltf_to_buffer d (some out1) out1.length (some osz2)).ret
        = some out2 := by
    simp [draco_decompress_gltf_to_buffer, hlen1, hne1, hdec2, hout2,
      hmalloc out2.length]
  obtain ⟨sfinal, hdec3, hequiv23⟩ := hroundtrip s2 out2 hout2
  refine ⟨out1, out2, sfinal, hcompress, hdecompress, hdec3, ?_⟩
  exact htrans (htrans (happly _ s0) hequiv12) hequiv23

/-- Witness for C7 with the spec-modelled delegate, taking geometric
equivalence as the total relation (any two scenes of the degenerate
witness scene type are equivalent). -/
theorem transcode_roundtrip_witness :
    ∃ out1 out2 sfinal,
      (draco_transcode_gltf_from_buffer specDelegate (some [1]) 1
          (some defaultDracoOptions) (some 0)).ret = some out1 ∧
      (draco_decompress_gltf_to_buffer specDelegate (some out1) out1.length
          (some 0)).ret = some out2 ∧
      specDelegate.DecodeFromBufferToScene out2 out2.length = some sfinal ∧
      (fun (_ _ : List UInt8) => True) sfinal sfinal :=
  by
    obtain ⟨out1, out2, sfinal, h1, h2, h3, -⟩ :=
      transcode_roundtrip specDelegate (fun _ _ => True) [1] 1
        defaultDracoOptions 0 0 [1] (by decide) (by decide) rfl
        (fun _ => rfl) (fun s => ⟨0 :: s, rfl, by simp⟩)
        (fun s b hb => by
          have hb2 : (0 :: s : List UInt8) = b :=
            Option.some.inj (show some (0 :: s) = some b from hb)
          subst hb2
          exact ⟨0 :: s, by simp [specDelegate], trivial⟩)
        (fun _ _ => trivial) (fun _ _ _ _ _ => trivial)
    exact ⟨out1, out2, sfinal, h1, h2, h3, trivial⟩


end DracoCAPI
